import Mathlib

/-!
# Trackwise social authentication — shallow embedding

This file embeds the social identity verification and account linking
subsystem of the trackwise backend
(`backend/app/services/social_auth.py`, `backend/app/api/v1/endpoints/auth.py`)
and proves/refutes the specification claims about it.

Modelling conventions:
* Python `None`-able values are `Option`; Python string truthiness
  (`if email:`) is `truthy` (non-`None` and non-empty).
* Raised exceptions are `Except.error`; a `try`-block body is an `_inner`
  function whose errors the wrapper converts exactly as the `except`
  clauses do (both Apple/Google verifiers convert every exception to
  `None`).
* The database is a list of rows plus an id sequence.  A commit validates
  the written row against all rows visible at commit time: the rows this
  transaction read plus `racing`, the rows committed concurrently by
  other transactions after our reads (the check-then-act race window).
  Sequential executions take `racing = []`.
* The unbounded `while True` username-probe loop is given explicit fuel;
  running out of fuel models non-termination of the source loop.
* Timestamps (`datetime.utcnow()` / the server default `now()`) are a
  `Nat`-valued clock passed in as `now`.
* External cryptographic collaborators (Google's `verify_oauth2_token`,
  the JWKS fetch, `jose_jwt.decode`, SHA-256) are inputs bundled in
  `World`: each is the outcome that collaborator produces for the request
  under consideration.
-/

set_option autoImplicit false

namespace Trackwise

/-- The two supported social providers. -/
inductive Provider where
  | google
  | apple
deriving DecidableEq, Repr

/-- The provider's string tag as used in `f"{provider}_id"` etc. -/
def Provider.tag : Provider → String
  | .google => "google"
  | .apple => "apple"

/--
One row of the `users` table.  Columns are those of
`app/models/user.py` plus the columns added by the migration
`add_social_auth_fields.py` (`google_id`, `apple_id`, `auth_provider`,
`email_verified`, `profile_picture`, and `hashed_password` made nullable)
and the `full_name` profile column used throughout the services.
`email`, `username` are non-null unique; `google_id`, `apple_id` are
nullable unique (`ix_users_google_id`, `ix_users_apple_id`).
-/
structure UserRow where
  id : Nat
  email : String
  username : String
  hashed_password : Option String
  full_name : Option String
  profile_picture : Option String
  email_verified : Bool
  auth_provider : Option String
  google_id : Option String
  apple_id : Option String
  is_active : Bool
  is_superuser : Bool
  preferences : Option String
  created_at : Nat
  updated_at : Nat
deriving DecidableEq, Repr

/-- The users table plus the id sequence feeding the auto-increment PK. -/
structure DB where
  rows : List UserRow
  nextId : Nat
deriving DecidableEq, Repr

/--
The dictionary returned by `verify_google_token` / `verify_apple_token`
and consumed by `create_or_update_social_user` (`provider_data`).
Missing dictionary keys are `none`; `email_verified` is the value after
`.get('email_verified', False)`.
-/
structure ProviderData where
  provider_id : Option String
  email : Option String
  email_verified : Bool
  full_name : Option String
  profile_picture : Option String
  given_name : Option String
  family_name : Option String
deriving DecidableEq, Repr

/-- Python truthiness of an optional string: `None` and `""` are falsy. -/
def truthy : Option String → Bool
  | none => false
  | some s => !(s == "")

/-- Python exceptions that the verification code raises or catches. -/
inductive PyError where
  | valueError (msg : String)
  | jwtInvalidToken (msg : String)
  | joseJWTError (msg : String)
  | keyError (key : String)
  | typeError
  | networkError
deriving DecidableEq, Repr

/-! ## Google token verification (`verify_google_token`) -/

/-- Claims dictionary of a Google ID token as returned by
`google.oauth2.id_token.verify_oauth2_token`. -/
structure GoogleClaims where
  iss : Option String
  sub : Option String
  email : Option String
  email_verified : Option Bool
  name : Option String
  picture : Option String
  given_name : Option String
  family_name : Option String
deriving DecidableEq, Repr

/-- The issuer allow-list checked by `verify_google_token`. -/
def googleIssuers : List String :=
  ["accounts.google.com", "https://accounts.google.com"]

/--
Body of the `try` block of `verify_google_token`.  `primitive` is the
outcome of the trusted collaborator
`google_id_token.verify_oauth2_token(token, request, GOOGLE_CLIENT_ID)`:
the claims dict, or the exception it raised.  `idinfo['iss']` /
`idinfo['sub']` raise `KeyError` when absent (`.get` is used for the
optional claims only).
-/
def verify_google_token_inner (primitive : Except PyError GoogleClaims) :
    Except PyError ProviderData :=
  match primitive with
  | Except.error e => Except.error e
  | Except.ok idinfo =>
    match idinfo.iss with
    | none => Except.error (PyError.keyError "iss")
    | some iss =>
      if iss ∈ googleIssuers then
        match idinfo.sub with
        | none => Except.error (PyError.keyError "sub")
        | some sub =>
          Except.ok
            { provider_id := some sub
              email := idinfo.email
              email_verified := idinfo.email_verified.getD false
              full_name := idinfo.name
              profile_picture := idinfo.picture
              given_name := idinfo.given_name
              family_name := idinfo.family_name }
      else
        Except.error (PyError.valueError "Invalid issuer")

/--
The function `verify_google_token`: both `except ValueError` and the catch-all
`except Exception` print and `return None`, so every raised error becomes
`none`.
-/
def verify_google_token (primitive : Except PyError GoogleClaims) :
    Option ProviderData :=
  match verify_google_token_inner primitive with
  | Except.ok pd => some pd
  | Except.error _ => none

/-! ## Apple token verification (`verify_apple_token`) -/

/-- One JWKS entry; only `kid` is inspected by the code itself (the other
fields feed `jwk.construct`, part of the opaque crypto collaborator). -/
structure AppleKey where
  kid : String
deriving DecidableEq, Repr

/-- The unverified JOSE header of the Apple token (`kid`, `alg` via `.get`). -/
structure AppleHeader where
  kid : Option String
  alg : Option String
deriving DecidableEq, Repr

/-- Claims of the Apple ID token as returned by `jose_jwt.decode`. -/
structure AppleClaims where
  iss : Option String
  sub : Option String
  email : Option String
  email_verified : Option Bool
  nonce : Option String
deriving DecidableEq, Repr

/--
The external collaborators of one authentication request, each recorded as
the outcome it produces on this request's token:
* `googlePrimitive` — result of `verify_oauth2_token` (claims or raise);
* `appleJwks` — the `keys` array of `GET https://appleid.apple.com/auth/keys`
  (or the network/JSON failure);
* `appleHeader` — result of `jwt.get_unverified_header(id_token)`;
* `appleDecode k` — result of `jose_jwt.decode(id_token, construct(k), ...)`
  when key `k` was selected (signature/expiry/audience checks inside);
* `sha256hex s` — `hashlib.sha256(s.encode('utf-8')).hexdigest()`.
-/
structure World where
  googlePrimitive : Except PyError GoogleClaims
  appleJwks : Except PyError (List AppleKey)
  appleHeader : Except PyError AppleHeader
  appleDecode : AppleKey → Except PyError AppleClaims
  sha256hex : String → String

/-- Python str.lower() as used on the (ASCII) hex digests being compared. -/
def strLower (s : String) : String := String.mk (s.data.map Char.toLower)

/-- The log line printed on a nonce mismatch (auth continues). -/
def nonceMismatchLog (hashed_nonce token_nonce : String) : String :=
  let e := hashed_nonce.take 16
  let g := token_nonce.take 16
  s!"Nonce mismatch (auth continues): expected={e}..., got={g}..."

/--
The nonce comparison step of `verify_apple_token` (lines 137–146): runs
only when the caller-supplied `nonce` is truthy and the token carries a
truthy `nonce` claim; hashes the raw nonce once with SHA-256 and compares
hex digests case-insensitively; a mismatch only logs.  Returns the log
lines printed.
-/
def appleNonceCheck (sha256hex : String → String) (nonce : Option String)
    (claimNonce : Option String) : List String :=
  match nonce with
  | none => []
  | some n =>
    if n == "" then []
    else
      match claimNonce with
      | none => []
      | some token_nonce =>
        if token_nonce == "" then []
        else
          let hashed_nonce := sha256hex n
          if strLower token_nonce == strLower hashed_nonce then []
          else [nonceMismatchLog hashed_nonce token_nonce]

/--
Body of the `try` block of `verify_apple_token`.  Produces the
`provider_data` dict and the log lines printed inside the block, or the
raised exception.  Key selection: first JWKS entry whose `kid` equals the
header's `kid` (a `None` header kid matches no entry); no entry →
`ValueError('Unable to find matching Apple public key')`.  Issuer must be
`https://appleid.apple.com`.
-/
def verify_apple_token_inner (w : World) (nonce : Option String) :
    Except PyError (ProviderData × List String) :=
  match w.appleJwks with
  | Except.error e => Except.error e
  | Except.ok keys =>
    match w.appleHeader with
    | Except.error e => Except.error e
    | Except.ok header =>
      match keys.find? (fun k => some k.kid == header.kid) with
      | none => Except.error (PyError.valueError "Unable to find matching Apple public key")
      | some apple_key =>
        match w.appleDecode apple_key with
        | Except.error e => Except.error e
        | Except.ok claims =>
          if claims.iss == some "https://appleid.apple.com" then
            let logs := appleNonceCheck w.sha256hex nonce claims.nonce
            Except.ok
              ({ provider_id := claims.sub
                 email := claims.email
                 email_verified := claims.email_verified.getD false
                 full_name := none
                 profile_picture := none
                 given_name := none
                 family_name := none }, logs)
          else
            Except.error (PyError.valueError "Invalid issuer")

/-- The log line the `except` clauses of `verify_apple_token` print. -/
def appleVerifyFailLog : PyError → String
  | PyError.jwtInvalidToken m => "Apple token verification failed: " ++ m
  | _ => "Unexpected error verifying Apple token"

/--
The function `verify_apple_token`: both `except jwt.InvalidTokenError` and the
catch-all `except Exception` print and `return None`, so every raised
error becomes `none`.  Result: the value returned to the caller, and the
log lines printed.
-/
def verify_apple_token (w : World) (nonce : Option String) :
    Option ProviderData × List String :=
  match verify_apple_token_inner w nonce with
  | Except.ok (pd, logs) => (some pd, logs)
  | Except.error e => (none, [appleVerifyFailLog e])

/-! ## Identity linking (`create_or_update_social_user`) -/

/-- The column `getattr(User, f"{provider}_id")` reads. -/
def getProviderId (p : Provider) (u : UserRow) : Option String :=
  match p with
  | .google => u.google_id
  | .apple => u.apple_id

/-- The assignment `setattr(user, provider_field, provider_id)`. -/
def setProviderId (p : Provider) (pid : Option String) (u : UserRow) : UserRow :=
  match p with
  | .google => { u with google_id := pid }
  | .apple => { u with apple_id := pid }

/--
The shared profile update applied on both match paths: fill
`profile_picture` / `full_name` when the claim value is truthy and the
stored one is falsy; set `email_verified` when asserted.  The source
performs the three conditional assignments in sequence; they read and
write disjoint fields, so one simultaneous record update is equivalent.
-/
def fillProfileFields (pd : ProviderData) (u : UserRow) : UserRow :=
  { u with
    profile_picture :=
      if truthy pd.profile_picture && !(truthy u.profile_picture) then
        pd.profile_picture
      else u.profile_picture
    full_name :=
      if truthy pd.full_name && !(truthy u.full_name) then
        pd.full_name
      else u.full_name
    email_verified := if pd.email_verified then true else u.email_verified }

/-- Errors escaping the linker (none are caught anywhere in the service). -/
inductive LinkError where
  /-- An `IntegrityError` from one of the unique constraints
  (`email`, `username`, `ix_users_google_id`, `ix_users_apple_id`). -/
  | uniqueViolation (colName : String)
  /-- A `TypeError` from the slice of `provider_id` when it is `None`. -/
  | typeError
  /-- The unbounded `while True` probe loop did not exit within the fuel. -/
  | probeFuelExhausted
deriving DecidableEq, Repr

/--
First unique column on which row `u` collides with a distinct row `v`:
`email` and `username` are non-null unique, `google_id` / `apple_id` are
unique where not null (SQL `NULL`s never collide).
-/
def conflictsWith (u v : UserRow) : Option String :=
  if u.email == v.email then some "email"
  else if u.username == v.username then some "username"
  else if u.google_id.isSome && u.google_id == v.google_id then some "google_id"
  else if u.apple_id.isSome && u.apple_id == v.apple_id then some "apple_id"
  else none

/--
Commit (`db.add(user); await db.commit()`) for a new row: the constraints are
checked against every row visible at commit time — the rows this
transaction read plus `racing`, rows committed concurrently after our
reads.  A collision raises `IntegrityError` (uncaught in the source).
-/
def commitInsert (db : DB) (racing : List UserRow) (u : UserRow) :
    Except LinkError (UserRow × DB) :=
  match (db.rows ++ racing).findSome? (fun v => conflictsWith u v) with
  | some c => Except.error (LinkError.uniqueViolation c)
  | none => Except.ok (u, { rows := db.rows ++ [u], nextId := db.nextId + 1 })

/-- Commit (`await db.commit()`) for an updated row `u` (matched by primary key). -/
def commitUpdate (db : DB) (racing : List UserRow) (u : UserRow) :
    Except LinkError (UserRow × DB) :=
  match ((db.rows.filter (fun v => !(v.id == u.id))) ++ racing).findSome?
      (fun v => conflictsWith u v) with
  | some c => Except.error (LinkError.uniqueViolation c)
  | none =>
    Except.ok (u, { db with rows := db.rows.map (fun v => if v.id == u.id then u else v) })

/-- Whether `select(User).where(User.username == name)` is non-empty. -/
def usernameTaken (db : DB) (name : String) : Bool :=
  (db.rows.find? (fun u => u.username == name)).isSome

/--
The `while True` collision-probe loop, with fuel: state is the current
candidate `username` and the `counter`; a taken candidate moves to
`f"{base_username}{counter}"` with the counter incremented.  `none`
models the unbounded source loop not terminating within `fuel` steps.
-/
def usernameProbe (db : DB) (base : String) :
    Nat → String → Nat → Option String
  | 0, _, _ => none
  | fuel + 1, username, counter =>
    if usernameTaken db username then
      usernameProbe db base fuel (base ++ toString counter) (counter + 1)
    else some username

/-- The `k`-th username candidate the loop checks, in order:
the base itself, then `base1`, `base2`, …. -/
def usernameCandidate (base : String) : Nat → String
  | 0 => base
  | k + 1 => base ++ toString (k + 1)

/--
Base username and account email of the create path when the identity
carries no (truthy) email: `f"{provider}_{provider_id[:8]}"` and the
synthesized `f"{provider_id}@{provider}.local"` — a `None` provider id
makes the slice raise `TypeError`.
-/
def usernameBaseNoEmail (provider : Provider) (provider_id : Option String) :
    Except LinkError (String × String) :=
  match provider_id with
  | none => Except.error LinkError.typeError
  | some pid =>
    let tag := provider.tag
    let pid8 := pid.take 8
    Except.ok (tag ++ "_" ++ pid8, pid ++ "@" ++ tag ++ ".local")

/--
Base username (`email.split('@')[0] if email else f"{provider}_{provider_id[:8]}"`)
and the email stored on the new row (`email or f"{provider_id}@{provider}.local"`).
-/
def usernameBase (provider : Provider) (provider_id email : Option String) :
    Except LinkError (String × String) :=
  match email with
  | some e =>
    if e == "" then usernameBaseNoEmail provider provider_id
    else Except.ok ((e.splitOn "@").headD "", e)
  | none => usernameBaseNoEmail provider provider_id

/--
The method `SocialAuthService.create_or_update_social_user(db, provider, provider_data)`:
1. match by provider id — update profile, bump `updated_at`, commit;
2. else, when the email is truthy, match by email — attach the provider
   id, update profile, set `auth_provider`, bump `updated_at`, commit;
3. else create: derive the username, probe collisions, insert the new row
   (`hashed_password = None`, `is_active = True`, timestamps from the
   server clock `now`).
`racing` are rows committed concurrently between our reads and our commit.
-/
def create_or_update_social_user (fuel now : Nat) (db : DB)
    (racing : List UserRow) (provider : Provider) (pd : ProviderData) :
    Except LinkError (UserRow × DB) :=
  let provider_id := pd.provider_id
  let email := pd.email
  match db.rows.find? (fun u => getProviderId provider u == provider_id) with
  | some user =>
    let user1 := fillProfileFields pd user
    let user2 := { user1 with updated_at := now }
    commitUpdate db racing user2
  | none =>
    match (if truthy email then db.rows.find? (fun u => some u.email == email)
           else none) with
    | some user =>
      let user1 := setProviderId provider provider_id user
      let user2 := fillProfileFields pd user1
      let user3 := { user2 with auth_provider := some provider.tag, updated_at := now }
      commitUpdate db racing user3
    | none =>
      match usernameBase provider provider_id email with
      | Except.error e => Except.error e
      | Except.ok (base, newEmail) =>
        match usernameProbe db base fuel base 1 with
        | none => Except.error LinkError.probeFuelExhausted
        | some username =>
          let user : UserRow :=
            { id := db.nextId
              email := newEmail
              username := username
              hashed_password := none
              full_name := pd.full_name
              profile_picture := pd.profile_picture
              email_verified := pd.email_verified
              auth_provider := some provider.tag
              google_id := match provider with
                | .google => provider_id
                | .apple => none
              apple_id := match provider with
                | .apple => provider_id
                | .google => none
              is_active := true
              is_superuser := false
              preferences := none
              created_at := now
              updated_at := now }
          commitInsert db racing user

/-! ## Orchestrator (`authenticate_social_user`) and endpoint (`social_login`) -/

/-- The configured token lifetime (`ACCESS_TOKEN_EXPIRE_MINUTES`, default 30). -/
def ACCESS_TOKEN_EXPIRE_MINUTES : Nat := 30

/-- The session credential minted by `create_access_token`: an opaque
signed token binding the subject (the user's email) and the expiry window. -/
structure AccessToken where
  sub : String
  expire_minutes : Nat
deriving DecidableEq, Repr

/-- The sanitized `user` dictionary returned by `authenticate_social_user`
(no `hashed_password`, no `preferences`). -/
structure UserPublic where
  id : Nat
  email : String
  username : String
  full_name : Option String
  profile_picture : Option String
  email_verified : Bool
  auth_provider : Option String
  is_active : Bool
  is_superuser : Bool
  created_at : Nat
  updated_at : Nat
deriving DecidableEq, Repr

/-- Projection of a row onto the returned `user` dictionary. -/
def UserRow.toPublic (u : UserRow) : UserPublic :=
  { id := u.id
    email := u.email
    username := u.username
    full_name := u.full_name
    profile_picture := u.profile_picture
    email_verified := u.email_verified
    auth_provider := u.auth_provider
    is_active := u.is_active
    is_superuser := u.is_superuser
    created_at := u.created_at
    updated_at := u.updated_at }

/-- The dictionary `authenticate_social_user` returns on success. -/
structure SocialAuthResult where
  access_token : AccessToken
  token_type : String
  user : UserPublic
deriving DecidableEq, Repr

/--
The method `SocialAuthService.authenticate_social_user`: dispatch on the provider
tag (unknown tag → `None`), verify, return `None` on verification
failure, otherwise link and mint the session token.  The returned pair is
(Python return value, database state after the call); a raised exception
(only the linker raises) propagates as `Except.error`.
-/
def authenticate_social_user (fuel now : Nat) (db : DB)
    (racing : List UserRow) (w : World) (provider : String)
    (nonce : Option String) :
    Except LinkError (Option SocialAuthResult × DB) :=
  let provider_data? : Option (Provider × ProviderData) :=
    if provider == "google" then
      (verify_google_token w.googlePrimitive).map (fun pd => (Provider.google, pd))
    else if provider == "apple" then
      ((verify_apple_token w nonce).1).map (fun pd => (Provider.apple, pd))
    else none
  match provider_data? with
  | none => Except.ok (none, db)
  | some (p, pd) =>
    match create_or_update_social_user fuel now db racing p pd with
    | Except.error e => Except.error e
    | Except.ok (user, db2) =>
      Except.ok
        (some { access_token :=
                  { sub := user.email
                    expire_minutes := ACCESS_TOKEN_EXPIRE_MINUTES }
                token_type := "bearer"
                user := user.toPublic }, db2)

/-- HTTP failure outcomes at the endpoint boundary, as produced by the
global exception handler (`AppException` → its `status_code`, anything
else → 500). -/
inductive HttpFailure where
  /-- An `AuthenticationError` (status 401). -/
  | authError (status : Nat) (msg : String)
  /-- An uncaught non-`AppException` (e.g. `IntegrityError`) → 500. -/
  | internalError (status : Nat)
deriving DecidableEq, Repr

/-- The endpoint's `SocialAuthResponse` body. -/
structure SocialAuthResponse where
  access_token : AccessToken
  token_type : String
  user : UserPublic
  is_new_user : Bool
deriving DecidableEq, Repr

/--
The `POST /social/login` endpoint (`social_login` in
`api/v1/endpoints/auth.py`): calls `authenticate_social_user`; `None` →
`AuthenticationError("Invalid social authentication token")` (HTTP 401);
otherwise computes `is_new_user` as `created_at == updated_at` of the
returned user and responds 200.  An exception escaping the service
reaches the generic handler (HTTP 500).
-/
def social_login (fuel now : Nat) (db : DB) (racing : List UserRow)
    (w : World) (provider : String) (nonce : Option String) :
    Except HttpFailure (SocialAuthResponse × DB) :=
  match authenticate_social_user fuel now db racing w provider nonce with
  | Except.error _ => Except.error (HttpFailure.internalError 500)
  | Except.ok (none, _) =>
    Except.error (HttpFailure.authError 401 "Invalid social authentication token")
  | Except.ok (some result, db2) =>
    let is_new_user := result.user.created_at == result.user.updated_at
    Except.ok
      ({ access_token := result.access_token
         token_type := result.token_type
         user := result.user
         is_new_user := is_new_user }, db2)

/-! ## Well-formedness of a database state -/

/-- Rows are pairwise free of unique-column collisions and have distinct
primary keys. -/
def rowsConsistent : List UserRow → Bool
  | [] => true
  | u :: rest =>
    rest.all (fun v => !(u.id == v.id) && (conflictsWith u v).isNone
                        && (conflictsWith v u).isNone)
      && rowsConsistent rest

/-- A well-formed database: consistent rows, all ids below the sequence. -/
def dbWF (db : DB) : Bool :=
  rowsConsistent db.rows && db.rows.all (fun u => u.id < db.nextId)

/-! ## Concrete scenario inputs -/

/-- A row template for building concrete scenarios. -/
def baseRow : UserRow :=
  { id := 0, email := "", username := "", hashed_password := none,
    full_name := none, profile_picture := none, email_verified := false,
    auth_provider := none, google_id := none, apple_id := none,
    is_active := true, is_superuser := false, preferences := none,
    created_at := 0, updated_at := 0 }

/-- A world in which every external collaborator fails; scenarios override
the pieces they exercise. -/
def quietWorld : World :=
  { googlePrimitive := Except.error PyError.networkError
    appleJwks := Except.error PyError.networkError
    appleHeader := Except.error PyError.networkError
    appleDecode := fun _ => Except.error PyError.networkError
    sha256hex := fun _ => "" }

/-- An empty users table. -/
def dbEmpty : DB := { rows := [], nextId := 1 }

/-- Valid Google claims for the user `bob@x.com`. -/
def claimsBob : GoogleClaims :=
  { iss := some "accounts.google.com", sub := some "google-sub-bob"
    email := some "bob@x.com", email_verified := some true
    name := some "Bob", picture := none, given_name := none, family_name := none }

/-- A Google request whose signature check raises inside the trusted
verification primitive. -/
def badSigWorld : World :=
  { quietWorld with
    googlePrimitive :=
      Except.error (PyError.valueError "Could not verify token signature") }

/-- An Apple request whose token header names kid `X` while the fetched
JWKS only contains kids `A` and `B`. -/
def worldC2 : World :=
  { quietWorld with
    appleJwks := Except.ok [{ kid := "A" }, { kid := "B" }]
    appleHeader := Except.ok { kid := some "X", alg := some "RS256" } }

/-- Apple claims carrying the hashed nonce `deadbeef`. -/
def claimsC6 : AppleClaims :=
  { iss := some "https://appleid.apple.com", sub := some "apple-sub"
    email := some "a@privaterelay.appleid.com", email_verified := some true
    nonce := some "deadbeef" }

/-- An Apple request that verifies with key `A` but whose nonce digest
(`cafe`) mismatches the token's nonce claim (`deadbeef`). -/
def worldC6 : World :=
  { quietWorld with
    appleJwks := Except.ok [{ kid := "A" }]
    appleHeader := Except.ok { kid := some "A", alg := some "RS256" }
    appleDecode := fun _ => Except.ok claimsC6
    sha256hex := fun _ => "cafe" }

/-- The users `alice` and `alice1` already exist. -/
def rowAlice : UserRow :=
  { baseRow with id := 1, email := "alice@x.com", username := "alice",
                 hashed_password := some "argon2-alice" }

def rowAlice1 : UserRow :=
  { baseRow with id := 2, email := "alice1@x.com", username := "alice1",
                 hashed_password := some "argon2-alice1" }

def dbAlice : DB := { rows := [rowAlice, rowAlice1], nextId := 3 }

/-- An email-less Apple identity. -/
def pdApple : ProviderData :=
  { provider_id := some "apple-user-0001", email := none, email_verified := true,
    full_name := none, profile_picture := none, given_name := none,
    family_name := none }

/-- The row `create_or_update_social_user` builds for `pdApple` on
`dbAlice` at clock 42. -/
def rowAppleNew : UserRow :=
  { id := 3, email := "apple-user-0001@apple.local",
    username := "apple_apple-us", hashed_password := none, full_name := none,
    profile_picture := none, email_verified := true,
    auth_provider := some "apple", google_id := none,
    apple_id := some "apple-user-0001", is_active := true,
    is_superuser := false, preferences := none, created_at := 42,
    updated_at := 42 }

/-- The state of `dbAlice` after inserting `rowAppleNew`. -/
def dbAfterApple : DB := { rows := [rowAlice, rowAlice1, rowAppleNew], nextId := 4 }

/-- A password-based account for `bob@x.com`. -/
def rowBob : UserRow :=
  { baseRow with id := 1, email := "bob@x.com", username := "bob",
                 hashed_password := some "argon2-bob", created_at := 10,
                 updated_at := 10 }

def dbBob : DB := { rows := [rowBob], nextId := 2 }

/-- The provider_data dict `verify_google_token` produces for `claimsBob`. -/
def pdBob : ProviderData :=
  { provider_id := some "google-sub-bob", email := some "bob@x.com",
    email_verified := true, full_name := some "Bob", profile_picture := none,
    given_name := none, family_name := none }

/-- The row a racing request committed between our reads and our commit:
the same Google identity, already linked. -/
def winnerRow : UserRow :=
  { baseRow with id := 7, email := "bob@x.com", username := "bob",
                 hashed_password := none, google_id := some "google-sub-bob",
                 auth_provider := some "google", created_at := 5,
                 updated_at := 5 }

/-- A Google request whose verification succeeds with `claimsBob`. -/
def raceWorld : World :=
  { quietWorld with googlePrimitive := Except.ok claimsBob }

/-! # Theorems -/

/--
C9 (confirmed).  For every Google token that passes the trusted
verification primitive with an issuer in
`{accounts.google.com, https://accounts.google.com}`, the identity
produced by `verify_google_token` has `provider_id` equal to the token's
`sub` claim.
-/
theorem C9_google_sub (primitive : Except PyError GoogleClaims)
    (claims : GoogleClaims) (iss sub : String)
    (hok : primitive = Except.ok claims)
    (hiss : claims.iss = some iss)
    (hmem : iss ∈ googleIssuers)
    (hsub : claims.sub = some sub) :
    ∃ pd, verify_google_token primitive = some pd ∧ pd.provider_id = some sub := by
  subst hok
  refine ⟨{ provider_id := some sub, email := claims.email,
            email_verified := claims.email_verified.getD false,
            full_name := claims.name, profile_picture := claims.picture,
            given_name := claims.given_name, family_name := claims.family_name },
          ?_, rfl⟩
  simp [verify_google_token, verify_google_token_inner, hiss, hsub, hmem]

/-- Witness for C9 at the concrete claims of `bob@x.com`. -/
theorem C9_witness :
    ∃ pd, verify_google_token (Except.ok claimsBob) = some pd ∧
      pd.provider_id = some "google-sub-bob" :=
  C9_google_sub (Except.ok claimsBob) claimsBob "accounts.google.com"
    "google-sub-bob" rfl rfl (by decide) rfl

/--
C3 (confirmed).  Whenever token verification fails (for any provider
string, including unknown tags), `authenticate_social_user` returns
`None` with the database unchanged — zero side effects — and the
`social_login` endpoint rejects with HTTP 401
(`AuthenticationError("Invalid social authentication token")`).
-/
theorem C3_reject_no_side_effects (fuel now : Nat) (db : DB)
    (racing : List UserRow) (w : World) (provider : String)
    (nonce : Option String)
    (hg : provider = "google" → verify_google_token w.googlePrimitive = none)
    (ha : provider = "apple" → (verify_apple_token w nonce).1 = none) :
    authenticate_social_user fuel now db racing w provider nonce =
      Except.ok (none, db)
    ∧ social_login fuel now db racing w provider nonce =
      Except.error (HttpFailure.authError 401 "Invalid social authentication token") := by
  have hauth : authenticate_social_user fuel now db racing w provider nonce =
      Except.ok (none, db) := by
    by_cases hgp : provider = "google"
    · subst hgp
      simp [authenticate_social_user, hg rfl]
    · by_cases hap : provider = "apple"
      · subst hap
        simp [authenticate_social_user, ha rfl]
      · simp [authenticate_social_user, hgp, hap]
  exact ⟨hauth, by simp [social_login, hauth]⟩

/-- Witness for C3: a Google token whose signature check raises inside
the verification primitive, against an empty database. -/
theorem C3_witness :
    authenticate_social_user 1 0 dbEmpty [] badSigWorld "google" none =
      Except.ok (none, dbEmpty)
    ∧ social_login 1 0 dbEmpty [] badSigWorld "google" none =
      Except.error (HttpFailure.authError 401 "Invalid social authentication token") :=
  C3_reject_no_side_effects 1 0 dbEmpty [] badSigWorld "google" none
    (fun _ => rfl) (fun h => absurd h (by decide))

/--
C2 (counterexample to the claim as stated).  At a concrete Apple
request whose header kid `X` matches no fetched key (`A`, `B`): the
`try`-body raises `ValueError('Unable to find matching Apple public key')` —
not PyJWT's `InvalidTokenError` — and the caller of `verify_apple_token`
receives the plain value `None` (the catch-all handler swallows the
exception), not a raised typed error.
-/
theorem C2_counterexample :
    verify_apple_token worldC2 none =
      (none, ["Unexpected error verifying Apple token"])
    ∧ verify_apple_token_inner worldC2 none =
      Except.error (PyError.valueError "Unable to find matching Apple public key") :=
  ⟨rfl, rfl⟩

/--
C2 amended (proved).  For every Apple request whose JWKS fetch and
header parse succeed but whose header kid matches no fetched key, the
`try`-body of `verify_apple_token` raises
`ValueError('Unable to find matching Apple public key')`, the catch-all
`except Exception` converts it, and the caller receives `None` (mapped to
HTTP 401 at the endpoint), never a token identity.
-/
theorem C2_unknown_kid_rejected (w : World) (nonce : Option String)
    (keys : List AppleKey) (header : AppleHeader)
    (hkeys : w.appleJwks = Except.ok keys)
    (hheader : w.appleHeader = Except.ok header)
    (hnone : keys.find? (fun k => some k.kid == header.kid) = none) :
    verify_apple_token_inner w nonce =
      Except.error (PyError.valueError "Unable to find matching Apple public key")
    ∧ verify_apple_token w nonce =
      (none, ["Unexpected error verifying Apple token"]) := by
  have hinner : verify_apple_token_inner w nonce =
      Except.error (PyError.valueError "Unable to find matching Apple public key") := by
    simp [verify_apple_token_inner, hkeys, hheader, hnone]
  exact ⟨hinner, by simp [verify_apple_token, hinner, appleVerifyFailLog]⟩

/-- Witness for the amended C2 at the concrete kid-miss request. -/
theorem C2_witness :
    verify_apple_token_inner worldC2 none =
      Except.error (PyError.valueError "Unable to find matching Apple public key")
    ∧ verify_apple_token worldC2 none =
      (none, ["Unexpected error verifying Apple token"]) :=
  C2_unknown_kid_rejected worldC2 none [{ kid := "A" }, { kid := "B" }]
    { kid := some "X", alg := some "RS256" } rfl rfl rfl

/--
C6 (confirmed).  In every Apple verification that reaches the nonce
step (key found, signature/decode ok, issuer ok): verification succeeds
regardless of the nonce comparison; when the caller supplied a
(non-empty) nonce and the token carries a (non-empty) `nonce` claim, the
SHA-256 hex digest of the supplied nonce is compared to the claim with
both sides lower-cased, and a mismatch only produces the log line; when
the token carries no `nonce` claim, no comparison happens and nothing is
logged.
-/
theorem C6_nonce_relaxed (w : World) (nonce : Option String)
    (keys : List AppleKey) (key : AppleKey) (header : AppleHeader)
    (claims : AppleClaims)
    (hkeys : w.appleJwks = Except.ok keys)
    (hheader : w.appleHeader = Except.ok header)
    (hfind : keys.find? (fun k => some k.kid == header.kid) = some key)
    (hdecode : w.appleDecode key = Except.ok claims)
    (hiss : claims.iss = some "https://appleid.apple.com") :
    (∃ pd, (verify_apple_token w nonce).1 = some pd ∧
       pd.provider_id = claims.sub)
    ∧ (verify_apple_token w nonce).2 =
        appleNonceCheck w.sha256hex nonce claims.nonce
    ∧ (claims.nonce = none → (verify_apple_token w nonce).2 = [])
    ∧ (∀ n tn, nonce = some n → n ≠ "" → claims.nonce = some tn → tn ≠ "" →
        (verify_apple_token w nonce).2 =
          (if strLower tn == strLower (w.sha256hex n) then []
           else [nonceMismatchLog (w.sha256hex n) tn])) := by
  have houter : verify_apple_token w nonce =
      (some { provider_id := claims.sub, email := claims.email,
              email_verified := claims.email_verified.getD false,
              full_name := none, profile_picture := none,
              given_name := none, family_name := none },
       appleNonceCheck w.sha256hex nonce claims.nonce) := by
    simp [verify_apple_token, verify_apple_token_inner, hkeys, hheader,
          hfind, hdecode, hiss]
  refine ⟨⟨_, by rw [houter], rfl⟩, by rw [houter], ?_, ?_⟩
  · intro hn
    rw [houter]
    simp only [appleNonceCheck, hn]
    cases nonce with
    | none => rfl
    | some n => by_cases hne : n == "" <;> simp [hne]
  · intro n tn hn hne htn htne
    rw [houter]
    simp [appleNonceCheck, hn, htn, hne, htne]

/-- Witness for C6: the concrete mismatching-nonce request still verifies
and only logs the mismatch. -/
theorem C6_witness :
    (∃ pd, (verify_apple_token worldC6 (some "raw")).1 = some pd ∧
       pd.provider_id = some "apple-sub")
    ∧ (verify_apple_token worldC6 (some "raw")).2 =
      [nonceMismatchLog "cafe" "deadbeef"] := by
  obtain ⟨h1, h2, -, -⟩ := C6_nonce_relaxed worldC6 (some "raw") [{ kid := "A" }]
    { kid := "A" } { kid := some "A", alg := some "RS256" } claimsC6 rfl rfl rfl rfl rfl
  exact ⟨h1, h2.trans (by decide)⟩

/--
Helper for C7: running the probe loop from the state that is about to
check candidate `k` (counter `k + 1`) returns the first free candidate at
or after `k`, provided one exists within the remaining fuel.
-/
theorem usernameProbe_from (db : DB) (base : String) :
    ∀ (j k fuel : Nat), j < fuel →
      (∀ i, k ≤ i → i < k + j → usernameTaken db (usernameCandidate base i) = true) →
      usernameTaken db (usernameCandidate base (k + j)) = false →
      usernameProbe db base fuel (usernameCandidate base k) (k + 1) =
        some (usernameCandidate base (k + j)) := by
  intro j
  induction j with
  | zero =>
    intro k fuel hf _ hfree
    match fuel, hf with
    | fuel + 1, _ =>
      simp only [Nat.add_zero] at hfree
      simp [usernameProbe, hfree]
  | succ j ih =>
    intro k fuel hf htaken hfree
    match fuel, hf with
    | fuel + 1, hf =>
      have hk : usernameTaken db (usernameCandidate base k) = true :=
        htaken k (Nat.le_refl k) (by omega)
      have hstep : base ++ toString (k + 1) = usernameCandidate base (k + 1) := rfl
      have hrec := ih (k + 1) fuel (by omega)
        (fun i h1 h2 => htaken i (by omega) (by omega))
        (by have hidx : k + 1 + j = k + (j + 1) := by omega
            rw [hidx]; exact hfree)
      have hidx : k + 1 + j = k + (j + 1) := by omega
      rw [hidx] at hrec
      simp [usernameProbe, hk, hstep, hrec]

/--
C7 (confirmed).  Username collision probing is deterministic and
ordered: the loop checks the base username, then `base1`, `base2`, …
(integer suffix starting at 1), and assigns the first candidate in that
order that no existing row holds.
-/
theorem C7_username_probe_order (db : DB) (base : String) (j fuel : Nat)
    (hfuel : j < fuel)
    (htaken : ∀ i, i < j → usernameTaken db (usernameCandidate base i) = true)
    (hfree : usernameTaken db (usernameCandidate base j) = false) :
    usernameProbe db base fuel base 1 = some (usernameCandidate base j) := by
  have h := usernameProbe_from db base j 0 fuel hfuel
    (fun i _ h2 => htaken i (by omega)) (by simpa using hfree)
  simpa [usernameCandidate] using h

/-- Witness for C7: with `alice` and `alice1` taken, the probe assigns
`alice2`. -/
theorem C7_witness :
    usernameProbe dbAlice "alice" 10 "alice" 1 = some "alice2" := by
  have h := C7_username_probe_order dbAlice "alice" 2 10 (by omega)
    (fun i hi => by
      match i, hi with
      | 0, _ => decide
      | 1, _ => decide)
    (by decide)
  exact h.trans (by decide)

/-- A successful insert commit appends exactly the built row. -/
theorem commitInsert_ok (db : DB) (racing : List UserRow) (u u' : UserRow)
    (db' : DB) (h : commitInsert db racing u = Except.ok (u', db')) :
    u' = u ∧ db'.rows = db.rows ++ [u] ∧ db'.nextId = db.nextId + 1 := by
  unfold commitInsert at h
  split at h
  · simp at h
  · simp only [Except.ok.injEq, Prod.mk.injEq] at h
    obtain ⟨hu, hdb⟩ := h
    subst hu
    subst hdb
    exact ⟨rfl, rfl, rfl⟩

/-- A successful update commit writes exactly the built row over its id. -/
theorem commitUpdate_ok (db : DB) (racing : List UserRow) (u u' : UserRow)
    (db' : DB) (h : commitUpdate db racing u = Except.ok (u', db')) :
    u' = u ∧ db'.rows = db.rows.map (fun v => if v.id == u.id then u else v)
      ∧ db'.nextId = db.nextId := by
  unfold commitUpdate at h
  split at h
  · simp at h
  · simp only [Except.ok.injEq, Prod.mk.injEq] at h
    obtain ⟨hu, hdb⟩ := h
    subst hu
    subst hdb
    exact ⟨rfl, rfl, rfl⟩

/-- The profile fill never touches the provider-id columns. -/
theorem getProviderId_fill (p : Provider) (pd : ProviderData) (u : UserRow) :
    getProviderId p (fillProfileFields pd u) = getProviderId p u := by
  cases p <;> rfl

/-- Setting a provider id makes that provider's column hold it. -/
theorem getProviderId_set (p : Provider) (pid : Option String) (u : UserRow) :
    getProviderId p (setProviderId p pid u) = pid := by
  cases p <;> rfl

/-- The probe loop only ever returns a username no existing row holds. -/
theorem usernameProbe_isFree (db : DB) (base : String) :
    ∀ (fuel : Nat) (start : String) (counter : Nat) (name : String),
      usernameProbe db base fuel start counter = some name →
      usernameTaken db name = false := by
  intro fuel
  induction fuel with
  | zero => intro _ _ _ h; cases h
  | succ fuel ih =>
    intro start counter name h
    unfold usernameProbe at h
    split at h
    · exact ih _ _ _ h
    · next hcond =>
      have hfree : usernameTaken db start = false := by
        simpa using hcond
      cases h
      exact hfree

/-- In a consistent row set, distinct rows collide on no unique column. -/
theorem rowsConsistent_conflict :
    ∀ (rows : List UserRow), rowsConsistent rows = true →
      ∀ {u v : UserRow}, u ∈ rows → v ∈ rows → u.id ≠ v.id →
        conflictsWith u v = none := by
  intro rows
  induction rows with
  | nil => intro _ u v hu; cases hu
  | cons w rest ih =>
    intro h u v hu hv hne
    simp only [rowsConsistent, Bool.and_eq_true, List.all_eq_true] at h
    obtain ⟨hall, hrest⟩ := h
    rcases List.mem_cons.mp hu with hu1 | hu1 <;>
      rcases List.mem_cons.mp hv with hv1 | hv1
    · subst hu1; subst hv1; exact absurd rfl hne
    · subst hu1
      have hwv := hall v hv1
      simp only [Bool.and_eq_true, Bool.not_eq_true', Option.isNone_iff_eq_none] at hwv
      exact hwv.1.2
    · subst hv1
      have hwu := hall u hu1
      simp only [Bool.and_eq_true, Bool.not_eq_true', Option.isNone_iff_eq_none] at hwu
      exact hwu.2
    · exact ih hrest hu1 hv1 hne

/--
C10 (confirmed).  Invariant of `create_or_update_social_user`: for
every provider and every `provider_data` carrying a provider id, the row
the call returns — on any of the three paths (provider-id match, email
match, create) — holds that id in its `{provider}_id` column.
-/
theorem C10_provider_id_invariant (fuel now : Nat) (db : DB)
    (racing : List UserRow) (p : Provider) (pd : ProviderData) (pid : String)
    (u : UserRow) (db' : DB)
    (hpid : pd.provider_id = some pid)
    (hok : create_or_update_social_user fuel now db racing p pd =
      Except.ok (u, db')) :
    getProviderId p u = some pid := by
  simp only [create_or_update_social_user, hpid] at hok
  split at hok
  · next user hfind =>
    obtain ⟨hu, -, -⟩ := commitUpdate_ok _ _ _ _ _ hok
    have hpred : (getProviderId p user == some pid) = true := by
      simpa using List.find?_some hfind
    have heq : getProviderId p user = some pid := by simpa using hpred
    subst hu
    calc getProviderId p { fillProfileFields pd user with updated_at := now }
        = getProviderId p (fillProfileFields pd user) := by cases p <;> rfl
      _ = getProviderId p user := getProviderId_fill p pd user
      _ = some pid := heq
  · split at hok
    · next user hfind =>
      obtain ⟨hu, -, -⟩ := commitUpdate_ok _ _ _ _ _ hok
      subst hu
      calc getProviderId p { fillProfileFields pd (setProviderId p (some pid) user)
              with auth_provider := some p.tag, updated_at := now }
          = getProviderId p (fillProfileFields pd (setProviderId p (some pid) user)) := by
            cases p <;> rfl
        _ = getProviderId p (setProviderId p (some pid) user) :=
            getProviderId_fill p pd _
        _ = some pid := getProviderId_set p (some pid) user
    · split at hok
      · simp at hok
      · next base newEmail hbase =>
        split at hok
        · simp at hok
        · next uname hprobe =>
          obtain ⟨hu, -, -⟩ := commitInsert_ok _ _ _ _ _ hok
          subst hu
          cases p <;> simp [getProviderId]

/-- Witness for C10: the concrete email-less Apple create run. -/
theorem C10_witness :
    getProviderId Provider.apple rowAppleNew = some "apple-user-0001" :=
  C10_provider_id_invariant 1 42 dbAlice [] Provider.apple pdApple
    "apple-user-0001" rowAppleNew dbAfterApple rfl rfl

/--
C8 (confirmed).  For every identity that matches no existing row by
provider id and carries no email, the created row has the synthesized
email `{provider_user_id}@{provider}.local`, a null password hash,
`is_active = true`, `auth_provider` equal to the provider tag, a fresh
primary key, and the endpoint's `is_new_user` computation
(`created_at == updated_at`) yields `true`; exactly one row is appended.
-/
theorem C8_create_no_email (fuel now : Nat) (db : DB) (racing : List UserRow)
    (p : Provider) (pd : ProviderData) (pid : String) (u : UserRow) (db' : DB)
    (hpid : pd.provider_id = some pid)
    (hemail : pd.email = none)
    (hnoid : db.rows.find? (fun x => getProviderId p x == some pid) = none)
    (hok : create_or_update_social_user fuel now db racing p pd =
      Except.ok (u, db')) :
    u.email = pid ++ "@" ++ p.tag ++ ".local"
    ∧ u.hashed_password = none
    ∧ u.is_active = true
    ∧ u.auth_provider = some p.tag
    ∧ u.id = db.nextId
    ∧ (u.toPublic.created_at == u.toPublic.updated_at) = true
    ∧ db'.rows = db.rows ++ [u] := by
  simp only [create_or_update_social_user, hpid, hemail, hnoid, truthy,
    Bool.false_eq_true, if_false, usernameBase, usernameBaseNoEmail] at hok
  split at hok
  · simp at hok
  · next uname hprobe =>
    obtain ⟨hu, hrows, -⟩ := commitInsert_ok _ _ _ _ _ hok
    subst hu
    refine ⟨rfl, rfl, rfl, rfl, rfl, ?_, hrows⟩
    simp [UserRow.toPublic]

/-- Witness for C8: the concrete email-less Apple create run. -/
theorem C8_witness :
    rowAppleNew.email = "apple-user-0001" ++ "@" ++ Provider.apple.tag ++ ".local"
    ∧ rowAppleNew.hashed_password = none
    ∧ rowAppleNew.is_active = true
    ∧ rowAppleNew.auth_provider = some Provider.apple.tag
    ∧ rowAppleNew.id = dbAlice.nextId
    ∧ (rowAppleNew.toPublic.created_at == rowAppleNew.toPublic.updated_at) = true
    ∧ dbAfterApple.rows = dbAlice.rows ++ [rowAppleNew] :=
  C8_create_no_email 1 42 dbAlice [] Provider.apple pdApple "apple-user-0001"
    rowAppleNew dbAfterApple rfl rfl (by decide) rfl

/-- A row collides with nothing when it differs on email and username and
its non-null provider ids are held by no other row. -/
theorem conflictsWith_none (u v : UserRow)
    (he : u.email ≠ v.email) (hn : u.username ≠ v.username)
    (hg : ∀ s, u.google_id = some s → v.google_id ≠ some s)
    (ha : ∀ s, u.apple_id = some s → v.apple_id ≠ some s) :
    conflictsWith u v = none := by
  have hge : (u.google_id.isSome && u.google_id == v.google_id) = false := by
    cases hu : u.google_id with
    | none => rfl
    | some s =>
      have hvs : v.google_id ≠ some s := hg s hu
      simp [Ne.symm hvs]
  have hae : (u.apple_id.isSome && u.apple_id == v.apple_id) = false := by
    cases hu : u.apple_id with
    | none => rfl
    | some s =>
      have hvs : v.apple_id ≠ some s := ha s hu
      simp [Ne.symm hvs]
  simp [conflictsWith, he, hn, hge, hae]

/-- What absence of a collision says about each unique column. -/
theorem conflictsWith_none_elim (u v : UserRow) (h : conflictsWith u v = none) :
    u.email ≠ v.email ∧ u.username ≠ v.username
    ∧ (∀ s, u.google_id = some s → v.google_id ≠ some s)
    ∧ (∀ s, u.apple_id = some s → v.apple_id ≠ some s) := by
  unfold conflictsWith at h
  split at h
  · simp at h
  · next h1 =>
    split at h
    · simp at h
    · next h2 =>
      split at h
      · simp at h
      · next h3 =>
        split at h
        · simp at h
        · next h4 =>
          refine ⟨by simpa using h1, by simpa using h2, ?_, ?_⟩
          · intro s hs hvs
            apply h3
            rw [hs, hvs]
            simp
          · intro s hs hvs
            apply h4
            rw [hs, hvs]
            simp

/-- The row written on the email-match path (provider id attached,
profile filled, `auth_provider` and `updated_at` set). -/
def linkedRow (pid : Option String) (pd : ProviderData) (p : Provider)
    (now : Nat) (u0 : UserRow) : UserRow :=
  { fillProfileFields pd (setProviderId p pid u0) with
    auth_provider := some p.tag, updated_at := now }

/--
C4 (confirmed).  For every existing password-based account whose
email equals the incoming Google identity's email, when no row holds the
identity's google id: linking attaches `google_id` to that row, sets
`auth_provider = "google"`, bumps only `updated_at` (besides the profile
fill), leaves the password hash and every other field unchanged, and the
endpoint's `is_new_user` computation (`created_at == updated_at`) yields
`false`.
-/
theorem C4_email_link (fuel now : Nat) (db : DB) (pd : ProviderData)
    (gid e hp : String) (u0 : UserRow)
    (hWF : dbWF db = true)
    (hpid : pd.provider_id = some gid)
    (hemail : pd.email = some e) (hne : e ≠ "")
    (hnoid : db.rows.find?
      (fun x => getProviderId Provider.google x == some gid) = none)
    (hfound : db.rows.find? (fun x => some x.email == some e) = some u0)
    (hpw : u0.hashed_password = some hp)
    (hnow : u0.created_at ≠ now) :
    ∃ u db',
      create_or_update_social_user fuel now db [] Provider.google pd =
        Except.ok (u, db')
      ∧ u.google_id = some gid
      ∧ u.auth_provider = some "google"
      ∧ u.hashed_password = some hp
      ∧ u.id = u0.id ∧ u.email = u0.email ∧ u.username = u0.username
      ∧ u.apple_id = u0.apple_id ∧ u.is_active = u0.is_active
      ∧ u.is_superuser = u0.is_superuser ∧ u.preferences = u0.preferences
      ∧ u.created_at = u0.created_at ∧ u.updated_at = now
      ∧ (u.toPublic.created_at == u.toPublic.updated_at) = false
      ∧ db'.rows = db.rows.map (fun v => if v.id == u0.id then u else v) := by
  have hrows : rowsConsistent db.rows = true := by
    simp only [dbWF, Bool.and_eq_true] at hWF
    exact hWF.1
  have hmem0 : u0 ∈ db.rows := List.mem_of_find?_eq_some hfound
  have hnog : ∀ x ∈ db.rows, x.google_id ≠ some gid := by
    intro x hx
    have hne1 := List.find?_eq_none.mp hnoid x hx
    simpa [getProviderId] using hne1
  have hcommit : (db.rows.filter
        (fun v => !(v.id == (linkedRow (some gid) pd Provider.google now u0).id))
        ++ ([] : List UserRow)).findSome?
      (fun v => conflictsWith (linkedRow (some gid) pd Provider.google now u0) v) = none := by
    rw [List.append_nil, List.findSome?_eq_none]
    intro v hv
    have hvmem : v ∈ db.rows := (List.mem_filter.mp hv).1
    have hvid : v.id ≠ u0.id := by
      have hb := (List.mem_filter.mp hv).2
      simpa using hb
    have hconf := rowsConsistent_conflict db.rows hrows hmem0 hvmem
      (fun hh => hvid hh.symm)
    obtain ⟨he', hn', -, ha'⟩ := conflictsWith_none_elim u0 v hconf
    apply conflictsWith_none
    · exact he'
    · exact hn'
    · intro s hs
      have hsgid : s = gid := by
        have hlg : (linkedRow (some gid) pd Provider.google now u0).google_id
            = some gid := rfl
        rw [hlg] at hs
        exact (Option.some.injEq _ _ ▸ hs).symm
      subst hsgid
      exact hnog v hvmem
    · exact ha'
  have hcu : commitUpdate db [] (linkedRow (some gid) pd Provider.google now u0) =
      Except.ok (linkedRow (some gid) pd Provider.google now u0,
        { db with rows := (db.rows.map (fun v => if v.id == (linkedRow (some gid) pd Provider.google now u0).id then linkedRow (some gid) pd Provider.google now u0 else v)) }) := by
    unfold commitUpdate
    rw [hcommit]
  have htr : truthy (some e) = true := by simp [truthy, hne]
  have hrun : create_or_update_social_user fuel now db [] Provider.google pd =
      commitUpdate db [] (linkedRow (some gid) pd Provider.google now u0) := by
    simp only [create_or_update_social_user, hpid, hemail, htr, if_true,
      hnoid, hfound]
    rfl
  refine ⟨linkedRow (some gid) pd Provider.google now u0, _, hrun.trans hcu,
    rfl, rfl, hpw, rfl, rfl, rfl, rfl, rfl, rfl, rfl, rfl, rfl, ?_, rfl⟩
  exact beq_eq_false_iff_ne.mpr hnow

/-- An insert whose row collides with no stored row commits. -/
theorem commitInsert_success (db : DB) (u : UserRow)
    (h : ∀ v ∈ db.rows, conflictsWith u v = none) :
    commitInsert db [] u =
      Except.ok (u, { rows := db.rows ++ [u], nextId := db.nextId + 1 }) := by
  unfold commitInsert
  have hnone : (db.rows ++ ([] : List UserRow)).findSome?
      (fun v => conflictsWith u v) = none := by
    rw [List.append_nil, List.findSome?_eq_none]
    exact h
  rw [hnone]

/-- An update whose row collides with no other stored row commits. -/
theorem commitUpdate_success (db : DB) (u : UserRow)
    (h : ∀ v ∈ db.rows, v.id ≠ u.id → conflictsWith u v = none) :
    commitUpdate db [] u =
      Except.ok (u, { db with rows := (db.rows.map (fun v => if v.id == u.id then u else v)) }) := by
  unfold commitUpdate
  have hnone : (db.rows.filter (fun v => !(v.id == u.id)) ++ ([] : List UserRow)).findSome?
      (fun v => conflictsWith u v) = none := by
    rw [List.append_nil, List.findSome?_eq_none]
    intro v hv
    exact h v (List.mem_filter.mp hv).1 (by simpa using (List.mem_filter.mp hv).2)
  rw [hnone]

/-- The row built on the create path. -/
def createdRow (p : Provider) (pd : ProviderData) (pid : Option String)
    (newEmail uname : String) (newId now : Nat) : UserRow :=
  { id := newId, email := newEmail, username := uname,
    hashed_password := none, full_name := pd.full_name,
    profile_picture := pd.profile_picture, email_verified := pd.email_verified,
    auth_provider := some p.tag,
    google_id := match p with | .google => pid | .apple => none,
    apple_id := match p with | .apple => pid | .google => none,
    is_active := true, is_superuser := false, preferences := none,
    created_at := now, updated_at := now }

/-- A freshly created row collides with no row that holds neither its
email, its username, nor its provider id. -/
theorem createdRow_conflict_none (p : Provider) (pd : ProviderData)
    (pid newEmail uname : String) (newId now : Nat) (v : UserRow)
    (he : v.email ≠ newEmail) (hu : v.username ≠ uname)
    (hid : (getProviderId p v == some pid) = false) :
    conflictsWith (createdRow p pd (some pid) newEmail uname newId now) v = none := by
  apply conflictsWith_none
  · exact fun hh => he hh.symm
  · exact fun hh => hu hh.symm
  · intro s hs hvs
    cases p with
    | google =>
      have hps : pid = s := by simpa [createdRow] using hs
      subst hps
      simp [getProviderId, hvs] at hid
    | apple => simp [createdRow] at hs
  · intro s hs hvs
    cases p with
    | google => simp [createdRow] at hs
    | apple =>
      have hps : pid = s := by simpa [createdRow] using hs
      subst hps
      simp [getProviderId, hvs] at hid

/--
C5 (confirmed).  Linking is idempotent: for a brand-new identity
(no provider-id match, no email match, fresh synthesized email, probe
terminating), the first call inserts exactly one row; the second
sequential call with the same `ProviderIdentity` raises nothing, inserts
nothing, returns the same user id, and the endpoint's `is_new_user`
computation (`created_at == updated_at`) yields `false` on its result.
-/
theorem C5_link_idempotent (fuel now1 now2 : Nat) (db : DB) (p : Provider)
    (pd : ProviderData) (pid base newEmail uname : String)
    (hpid : pd.provider_id = some pid)
    (hnoid : db.rows.find? (fun x => getProviderId p x == some pid) = none)
    (hnoem : ∀ e, pd.email = some e →
      db.rows.find? (fun x => some x.email == some e) = none)
    (hbase : usernameBase p (some pid) pd.email = Except.ok (base, newEmail))
    (hprobe : usernameProbe db base fuel base 1 = some uname)
    (hfresh : ∀ v ∈ db.rows, v.email ≠ newEmail)
    (hne12 : now1 ≠ now2) :
    ∃ u1 db1 u2 db2,
      create_or_update_social_user fuel now1 db [] p pd = Except.ok (u1, db1)
      ∧ db1.rows.length = db.rows.length + 1
      ∧ create_or_update_social_user fuel now2 db1 [] p pd = Except.ok (u2, db2)
      ∧ db2.rows.length = db1.rows.length
      ∧ u2.id = u1.id
      ∧ (u2.toPublic.created_at == u2.toPublic.updated_at) = false := by
  have hnogid : ∀ x ∈ db.rows, (getProviderId p x == some pid) = false := by
    intro x hx
    exact Bool.eq_false_iff.mpr (List.find?_eq_none.mp hnoid x hx)
  have hfindU : db.rows.find? (fun x => x.username == uname) = none := by
    have h1 : usernameTaken db uname = false :=
      usernameProbe_isFree db base fuel base 1 uname hprobe
    unfold usernameTaken at h1
    cases hf : db.rows.find? (fun x => x.username == uname) with
    | none => rfl
    | some a => rw [hf] at h1; simp at h1
  have hnoun : ∀ x ∈ db.rows, x.username ≠ uname := by
    intro x hx
    simpa using List.find?_eq_none.mp hfindU x hx
  have hconf1 : ∀ v ∈ db.rows,
      conflictsWith (createdRow p pd (some pid) newEmail uname db.nextId now1) v = none :=
    fun v hv => createdRow_conflict_none p pd pid newEmail uname db.nextId now1 v
      (hfresh v hv) (hnoun v hv) (hnogid v hv)
  have hins := commitInsert_success db
    (createdRow p pd (some pid) newEmail uname db.nextId now1) hconf1
  have hm2 : (if truthy pd.email then
      db.rows.find? (fun x => some x.email == pd.email) else none) = none := by
    cases hpe : pd.email with
    | none => rfl
    | some e =>
      by_cases he : e = ""
      · subst he; rfl
      · have htr : truthy (some e) = true := by simp [truthy, he]
        simp only [htr, if_true]
        exact hnoem e hpe
  have hrun1 : create_or_update_social_user fuel now1 db [] p pd =
      Except.ok (createdRow p pd (some pid) newEmail uname db.nextId now1,
        { rows := db.rows ++ [createdRow p pd (some pid) newEmail uname db.nextId now1],
          nextId := db.nextId + 1 }) := by
    simp only [create_or_update_social_user, hpid, hnoid, hm2, hbase, hprobe]
    exact hins
  have hp2 : (getProviderId p (createdRow p pd (some pid) newEmail uname db.nextId now1)
      == some pid) = true := by
    cases p <;> simp [createdRow, getProviderId]
  have hfind2 : (db.rows ++ [createdRow p pd (some pid) newEmail uname db.nextId now1]).find?
      (fun x => getProviderId p x == some pid) =
      some (createdRow p pd (some pid) newEmail uname db.nextId now1) := by
    rw [List.find?_append, hnoid]
    simp [List.find?_cons, hp2]
  have hconf2 : ∀ v ∈ ({ rows := db.rows ++ [createdRow p pd (some pid) newEmail uname db.nextId now1], nextId := db.nextId + 1 } : DB).rows,
      v.id ≠ ({ fillProfileFields pd (createdRow p pd (some pid) newEmail uname db.nextId now1) with updated_at := now2 } : UserRow).id →
      conflictsWith ({ fillProfileFields pd (createdRow p pd (some pid) newEmail uname db.nextId now1) with updated_at := now2 } : UserRow) v = none := by
    intro v hv hvid
    rcases List.mem_append.mp hv with hv1 | hv1
    · exact createdRow_conflict_none p pd pid newEmail uname db.nextId now1 v
        (hfresh v hv1) (hnoun v hv1) (hnogid v hv1)
    · have hveq : v = createdRow p pd (some pid) newEmail uname db.nextId now1 := by
        simpa using hv1
      subst hveq
      exact absurd rfl hvid
  have hupd := commitUpdate_success
    { rows := db.rows ++ [createdRow p pd (some pid) newEmail uname db.nextId now1],
      nextId := db.nextId + 1 }
    ({ fillProfileFields pd (createdRow p pd (some pid) newEmail uname db.nextId now1) with updated_at := now2 } : UserRow)
    hconf2
  have hrun2 : create_or_update_social_user fuel now2
      { rows := db.rows ++ [createdRow p pd (some pid) newEmail uname db.nextId now1],
        nextId := db.nextId + 1 } [] p pd =
      Except.ok (({ fillProfileFields pd (createdRow p pd (some pid) newEmail uname db.nextId now1) with updated_at := now2 } : UserRow),
        { rows := ((db.rows ++ [createdRow p pd (some pid) newEmail uname db.nextId now1]).map (fun v => if v.id == ({ fillProfileFields pd (createdRow p pd (some pid) newEmail uname db.nextId now1) with updated_at := now2 } : UserRow).id then ({ fillProfileFields pd (createdRow p pd (some pid) newEmail uname db.nextId now1) with updated_at := now2 } : UserRow) else v)),
          nextId := db.nextId + 1 }) := by
    simp only [create_or_update_social_user, hpid, hfind2]
    exact hupd
  refine ⟨createdRow p pd (some pid) newEmail uname db.nextId now1, _,
    ({ fillProfileFields pd (createdRow p pd (some pid) newEmail uname db.nextId now1) with updated_at := now2 } : UserRow), _,
    hrun1, ?_, hrun2, ?_, rfl, ?_⟩
  · simp
  · simp
  · exact beq_eq_false_iff_ne.mpr hne12

/-- Witness for C5: a brand-new email-less Apple identity linked twice
against an initially empty table. -/
theorem C5_witness :
    ∃ u1 db1 u2 db2,
      create_or_update_social_user 1 1 dbEmpty [] Provider.apple pdApple =
        Except.ok (u1, db1)
      ∧ db1.rows.length = dbEmpty.rows.length + 1
      ∧ create_or_update_social_user 1 2 db1 [] Provider.apple pdApple =
        Except.ok (u2, db2)
      ∧ db2.rows.length = db1.rows.length
      ∧ u2.id = u1.id
      ∧ (u2.toPublic.created_at == u2.toPublic.updated_at) = false :=
  C5_link_idempotent 1 1 2 dbEmpty Provider.apple pdApple "apple-user-0001"
    "apple_apple-us" "apple-user-0001@apple.local" "apple_apple-us"
    rfl rfl (fun e h => nomatch h) rfl rfl (fun v hv => nomatch hv) (by decide)

/--
C1 (counterexample to the claim as stated).  A concrete race: the
linker reads an empty table, a racing request has committed the same
Google identity (`winnerRow`), and our insert trips the uniqueness
constraint.  The `IntegrityError` is not caught, not converted to any
`ConcurrentLinkConflict`, and not retried: it propagates out of
`create_or_update_social_user` and `authenticate_social_user`, and the
endpoint surfaces HTTP 500 — the caller never receives the winning row.
-/
theorem C1_counterexample :
    create_or_update_social_user 1 9 dbEmpty [winnerRow] Provider.google pdBob =
      Except.error (LinkError.uniqueViolation "email")
    ∧ authenticate_social_user 1 9 dbEmpty [winnerRow] raceWorld "google" none =
      Except.error (LinkError.uniqueViolation "email")
    ∧ social_login 1 9 dbEmpty [winnerRow] raceWorld "google" none =
      Except.error (HttpFailure.internalError 500) :=
  ⟨rfl, rfl, rfl⟩

/--
C1 amended (proved).  Whenever Google verification succeeds and the
linker raises a uniqueness violation, the orchestrator re-raises that
very exception (no catch, no conversion, no second resolution attempt)
and the endpoint maps it to HTTP 500 via the generic exception handler.
-/
theorem C1_no_catch_no_retry (fuel now : Nat) (db : DB)
    (racing : List UserRow) (w : World) (nonce : Option String)
    (pd : ProviderData) (c : String)
    (hv : verify_google_token w.googlePrimitive = some pd)
    (hlink : create_or_update_social_user fuel now db racing Provider.google pd =
      Except.error (LinkError.uniqueViolation c)) :
    authenticate_social_user fuel now db racing w "google" nonce =
      Except.error (LinkError.uniqueViolation c)
    ∧ social_login fuel now db racing w "google" nonce =
      Except.error (HttpFailure.internalError 500) := by
  have hauth : authenticate_social_user fuel now db racing w "google" nonce =
      Except.error (LinkError.uniqueViolation c) := by
    simp [authenticate_social_user, hv, hlink]
  exact ⟨hauth, by simp [social_login, hauth]⟩

/-- Witness for the amended C1 at the concrete racing input. -/
theorem C1_witness :
    authenticate_social_user 1 9 dbEmpty [winnerRow] raceWorld "google" none =
      Except.error (LinkError.uniqueViolation "email")
    ∧ social_login 1 9 dbEmpty [winnerRow] raceWorld "google" none =
      Except.error (HttpFailure.internalError 500) :=
  C1_no_catch_no_retry 1 9 dbEmpty [winnerRow] raceWorld none pdBob "email"
    rfl rfl

/-- Witness for C4: `bob@x.com`, an existing password account, signs in
with Google under the same verified email. -/
theorem C4_witness :
    ∃ u db',
      create_or_update_social_user 1 50 dbBob [] Provider.google pdBob =
        Except.ok (u, db')
      ∧ u.google_id = some "google-sub-bob"
      ∧ u.auth_provider = some "google"
      ∧ u.hashed_password = some "argon2-bob"
      ∧ u.id = rowBob.id ∧ u.email = rowBob.email ∧ u.username = rowBob.username
      ∧ u.apple_id = rowBob.apple_id ∧ u.is_active = rowBob.is_active
      ∧ u.is_superuser = rowBob.is_superuser ∧ u.preferences = rowBob.preferences
      ∧ u.created_at = rowBob.created_at ∧ u.updated_at = 50
      ∧ (u.toPublic.created_at == u.toPublic.updated_at) = false
      ∧ db'.rows = dbBob.rows.map (fun v => if v.id == rowBob.id then u else v) :=
  C4_email_link 1 50 dbBob pdBob "google-sub-bob" "bob@x.com" "argon2-bob"
    rowBob (by decide) rfl rfl (by decide) rfl rfl rfl (by decide)

end Trackwise
